import Mathlib

/-
Verification of the smopsys_sv core modules: the beta-decay simulator
(src_backups/beta_decay.c) and the Simon-oracle stack
(src_backups/simon_oracle.c). Serial trace output carries no data the
theorems depend on, so trace writes are dropped from the embedding; the
chirality reporter, whose only observable behaviour is its trace
classification line, is embedded as returning that classification label.
-/

/-- Modelled from the spec: one record of the Isotope Table collaborator
(nuclear_states.c is not among the sources; the field names follow the
accessors used in the sources and the data model of the spec: name,
handedness label, unsigned index attribute h7_index). -/
structure NuclearIsotope where
  name : String
  handedness : String
  h7_index : Nat
  deriving DecidableEq

/-- Modelled from the spec: the Isotope Table lookup
(nuclear_states.c is not among the sources). Exact string match by name,
absence reported as a normal outcome via none. The table itself is a
parameter, populated externally. -/
def nuclear_find_isotope (table : List NuclearIsotope) (nm : String) :
    Option NuclearIsotope :=
  table.find? (fun iso => iso.name == nm)

/-- Result record of beta_decay_simulate. The C Q_value_mev field is a float
assigned only the literal constants 0.0f and 0.01857f and never computed
with, so it is embedded as a rational carrying the decimal literal. -/
structure BetaDecayResult where
  occurred : Bool
  Q_value_mev : ℚ
  fermionic_output : Nat
  deriving DecidableEq

/-- Tests whether a C string has first byte equal to the character T
(parent->name[0] == 'T'; an empty string has first byte NUL, not T). -/
def nameFirstByteT (s : String) : Bool :=
  match s.data with
  | [] => false
  | c :: _ => c == 'T'

def heThreeName : String := "He-3"

/-- Embedding of beta_decay_simulate (beta_decay.c, lines 15-52): zeroed
result on lookup miss; on a parent whose table name starts with T, a hit on
the daughter He-3 yields occurred with Q = 0.01857 MeV and fermionic mask
0b11; otherwise the zeroed result is returned. -/
def beta_decay_simulate (table : List NuclearIsotope) (parent_name : String) :
    BetaDecayResult :=
  match nuclear_find_isotope table parent_name with
  | none => ⟨false, 0, 0⟩
  | some parent =>
    if nameFirstByteT parent.name then
      match nuclear_find_isotope table heThreeName with
      | some _ => ⟨true, 0.01857, 0b11⟩
      | none => ⟨false, 0, 0⟩
    else
      ⟨false, 0, 0⟩

def LEFT_HANDED : String := "LEFT-HANDED"

def RIGHT_HANDED : String := "RIGHT-HANDED"

def CENTER : String := "CENTER"

/-- Embedding of beta_decay_compute_chirality (beta_decay.c, lines 58-83).
The C function is void and only writes trace lines; its observable
classification (the Handedness line) is returned. Bit 0 is the electron,
bit 1 the antineutrino. -/
def beta_decay_compute_chirality (fermionic_output : Nat) : String :=
  let has_electron := (fermionic_output &&& 0b01) != 0
  let has_antineutrino := (fermionic_output &&& 0b10) != 0
  if has_electron && has_antineutrino then LEFT_HANDED
  else if has_electron && !has_antineutrino then RIGHT_HANDED
  else CENTER

/-- The process-wide mutable oracle state of simon_oracle.c: a uint8_t
secret and a uint32_t query counter, threaded explicitly. -/
structure OracleState where
  oracle_secret : Nat
  query_count : Nat
  deriving DecidableEq

/-- Embedding of simon_oracle_init (simon_oracle.c, lines 23-30): stores the
secret (a uint8_t parameter, hence reduced mod 256) and resets the counter;
the previous state is overwritten entirely. -/
def simon_oracle_init (secret : Nat) (_s : OracleState) : OracleState :=
  ⟨secret % 256, 0⟩

/-- Embedding of simon_oracle_query (simon_oracle.c, lines 32-50):
increments the uint32_t counter (mod 2^32) and returns x XOR secret,
truncated to the uint8_t result variable. -/
def simon_oracle_query (x : Nat) (s : OracleState) : Nat × OracleState :=
  let qc := (s.query_count + 1) % 4294967296
  let result := ((x % 256) ^^^ s.oracle_secret) % 256
  (result, ⟨s.oracle_secret, qc⟩)

/-- Embedding of simon_oracle_get_query_count (simon_oracle.c, line 52):
reads the counter, no state change. -/
def simon_oracle_get_query_count (s : OracleState) : Nat :=
  s.query_count

/-- Result record of simon_run_algorithm. -/
structure SimonResult where
  queries : Nat
  secret_found : Bool
  recovered_secret : Nat
  deriving DecidableEq

/-- One iteration of the fixed query loop of simon_run_algorithm: queries
the oracle at input i, bumps the local tally and records the input queried
(the oracle output fx is computed and discarded, as in the source). -/
def simon_loop_body (acc : OracleState × Nat × List Nat) (i : Nat) :
    OracleState × Nat × List Nat :=
  ((simon_oracle_query i acc.1).2, acc.2.1 + 1, acc.2.2 ++ [i])

/-- Embedding of simon_run_algorithm (simon_oracle.c, lines 60-86): three
oracle queries at inputs 0, 1, 2 (the loop bound is the literal 3; n_qubits
is only traced), then the result copies the oracle secret directly and
flags it found. Besides the result and final state, the list of oracle
inputs queried is returned, to let theorems speak about the queries
performed. -/
def simon_run_algorithm (_n_qubits : Nat) (s : OracleState) :
    SimonResult × OracleState × List Nat :=
  let fin := (List.range 3).foldl simon_loop_body (s, 0, [])
  (⟨fin.2.1, true, fin.1.oracle_secret⟩, fin.1, fin.2.2)

/-- Observable outcome of simon_nuclear_search (which returns void in C):
the final oracle state, the list of oracle inputs queried, and the list of
n_qubits values the algorithm runner was invoked with. -/
structure SearchTrace where
  finalState : OracleState
  queryLog : List Nat
  runnerCalls : List Nat
  deriving DecidableEq

/-- Embedding of simon_nuclear_search (simon_oracle.c, lines 92-122): on a
table miss it returns with no oracle interaction; on a hit it initializes
the oracle with the isotope h7_index as secret and runs the algorithm with
the literal qubit count 3, discarding the SimonResult. -/
def simon_nuclear_search (table : List NuclearIsotope) (target_isotope : String)
    (s : OracleState) : SearchTrace :=
  match nuclear_find_isotope table target_isotope with
  | none => ⟨s, [], []⟩
  | some iso =>
    let s1 := simon_oracle_init iso.h7_index s
    let r := simon_run_algorithm 3 s1
    ⟨r.2.1, r.2.2, [3]⟩

/- Concrete sample data for witnesses. -/

def tName : String := "T"

def leftLabel : String := "LEFT"

def demoTable : List NuclearIsotope :=
  [⟨tName, leftLabel, 5⟩, ⟨heThreeName, leftLabel, 2⟩]

def demoTableNoDaughter : List NuclearIsotope :=
  [⟨tName, leftLabel, 5⟩]

/- Helper lemmas shared across the development. -/

/-- Iterated querying at input 0, used to reach deep counter states. -/
def applyQueries : Nat → OracleState → OracleState
  | 0, s => s
  | k + 1, s => applyQueries k (simon_oracle_query 0 s).2

theorem applyQueries_query_count (k : Nat) (s : OracleState)
    (h : s.query_count < 4294967296) :
    (applyQueries k s).query_count = (s.query_count + k) % 4294967296 := by
  induction k generalizing s with
  | zero => simpa [applyQueries] using (Nat.mod_eq_of_lt h).symm
  | succ k ih =>
    have hlt : (s.query_count + 1) % 4294967296 < 4294967296 :=
      Nat.mod_lt _ (by norm_num)
    have := ih ⟨s.oracle_secret, (s.query_count + 1) % 4294967296⟩ hlt
    simp only [applyQueries, simon_oracle_query] at this ⊢
    rw [this, Nat.mod_add_mod]
    omega

/- Theorems for the claims. -/

/-- Claim C1: for every parent name matched in the isotope table to an entry
whose name begins with T, with the daughter He-3 present in the table,
beta_decay_simulate returns occurred = true, Q_value_mev = 0.01857 and
fermionic_output mask 0b11. -/
theorem c1_tritium_decay (table : List NuclearIsotope) (parent_name : String)
    (parent d : NuclearIsotope)
    (hp : nuclear_find_isotope table parent_name = some parent)
    (hT : nameFirstByteT parent.name = true)
    (hd : nuclear_find_isotope table heThreeName = some d) :
    beta_decay_simulate table parent_name = ⟨true, 0.01857, 0b11⟩ := by
  simp [beta_decay_simulate, hp, hT, hd]

theorem c1_tritium_decay_witness :
    beta_decay_simulate demoTable tName = ⟨true, 0.01857, 0b11⟩ :=
  c1_tritium_decay demoTable tName ⟨tName, leftLabel, 5⟩ ⟨heThreeName, leftLabel, 2⟩
    (by decide) (by decide) (by decide)

/-- Claim C5: for every parent name matched to an entry whose name begins
with T but with He-3 absent from the table, beta_decay_simulate returns the
zeroed result (occurred = false, energy 0, mask 0). -/
theorem c5_daughter_miss (table : List NuclearIsotope) (parent_name : String)
    (parent : NuclearIsotope)
    (hp : nuclear_find_isotope table parent_name = some parent)
    (hT : nameFirstByteT parent.name = true)
    (hd : nuclear_find_isotope table heThreeName = none) :
    beta_decay_simulate table parent_name = ⟨false, 0, 0⟩ := by
  simp [beta_decay_simulate, hp, hT, hd]

theorem c5_daughter_miss_witness :
    beta_decay_simulate demoTableNoDaughter tName = ⟨false, 0, 0⟩ :=
  c5_daughter_miss demoTableNoDaughter tName ⟨tName, leftLabel, 5⟩
    (by decide) (by decide) (by decide)

/-- Claim C6: for every parent name absent from the table, or matched to an
entry whose name does not begin with T, beta_decay_simulate returns normally
with the zeroed result (occurred = false, energy 0, mask 0). -/
theorem c6_stable_or_missing (table : List NuclearIsotope) (parent_name : String)
    (h : ∀ iso, nuclear_find_isotope table parent_name = some iso →
      nameFirstByteT iso.name = false) :
    beta_decay_simulate table parent_name = ⟨false, 0, 0⟩ := by
  unfold beta_decay_simulate
  cases hfind : nuclear_find_isotope table parent_name with
  | none => rfl
  | some iso => simp [h iso hfind]

theorem c6_stable_or_missing_witness :
    beta_decay_simulate demoTable heThreeName = ⟨false, 0, 0⟩ :=
  c6_stable_or_missing demoTable heThreeName (by decide)

/-- Claim C4: beta_decay_compute_chirality classifies its 2-bit mask
exhaustively: 0b11 gives LEFT-HANDED, 0b01 gives RIGHT-HANDED, and 0b10 and
0b00 both give CENTER. -/
theorem c4_chirality_classification :
    beta_decay_compute_chirality 0b11 = LEFT_HANDED ∧
    beta_decay_compute_chirality 0b01 = RIGHT_HANDED ∧
    beta_decay_compute_chirality 0b10 = CENTER ∧
    beta_decay_compute_chirality 0b00 = CENTER := by
  decide

set_option maxRecDepth 20000 in
/-- Claim C10: for every 8-bit argument m, beta_decay_compute_chirality
classifies m identically to m AND 0b11, the bits above the low two being
ignored; in particular 0xFF classifies as LEFT-HANDED rather than being
rejected. -/
theorem c10_high_bits_ignored :
    (∀ m : Nat, m < 256 →
      beta_decay_compute_chirality m = beta_decay_compute_chirality (m &&& 0b11)) ∧
    beta_decay_compute_chirality 0xFF = LEFT_HANDED := by
  decide

theorem c10_high_bits_ignored_witness :
    beta_decay_compute_chirality 0xFF = beta_decay_compute_chirality (0xFF &&& 0b11) :=
  c10_high_bits_ignored.1 0xFF (by decide)

/-- Claim C2: simon_run_algorithm always performs exactly 3 oracle queries,
at inputs 0, 1 and 2, and returns queries = 3, secret_found = true, and
recovered_secret equal to the currently configured oracle secret, whatever
the query outputs (the secret is copied, not derived). -/
theorem c2_run_algorithm_stub (n_qubits : Nat) (s : OracleState) :
    (simon_run_algorithm n_qubits s).1.queries = 3 ∧
    (simon_run_algorithm n_qubits s).1.secret_found = true ∧
    (simon_run_algorithm n_qubits s).1.recovered_secret = s.oracle_secret ∧
    (simon_run_algorithm n_qubits s).2.2 = [0, 1, 2] := by
  refine ⟨rfl, rfl, rfl, rfl⟩

theorem c2_run_algorithm_stub_witness :
    (simon_run_algorithm 3 ⟨7, 0⟩).1.queries = 3 ∧
    (simon_run_algorithm 3 ⟨7, 0⟩).1.secret_found = true ∧
    (simon_run_algorithm 3 ⟨7, 0⟩).1.recovered_secret =
      (⟨7, 0⟩ : OracleState).oracle_secret ∧
    (simon_run_algorithm 3 ⟨7, 0⟩).2.2 = [0, 1, 2] :=
  c2_run_algorithm_stub 3 ⟨7, 0⟩

/-- Claim C3: for every byte x and byte secret, simon_oracle_query returns
x XOR secret, and querying that value again with the secret unchanged gives
back x: the oracle is a self-inverse XOR mask. -/
theorem c3_query_xor_involution (x secret qc : Nat)
    (hx : x < 256) (hs : secret < 256) :
    (simon_oracle_query x ⟨secret, qc⟩).1 = x ^^^ secret ∧
    (simon_oracle_query (simon_oracle_query x ⟨secret, qc⟩).1
      (simon_oracle_query x ⟨secret, qc⟩).2).1 = x := by
  have hx8 : x < 2 ^ 8 := by omega
  have hs8 : secret < 2 ^ 8 := by omega
  have hxor : x ^^^ secret < 256 := by
    have := Nat.xor_lt_two_pow hx8 hs8
    omega
  have h1 : (simon_oracle_query x ⟨secret, qc⟩).1 = x ^^^ secret := by
    simp [simon_oracle_query, Nat.mod_eq_of_lt hx, Nat.mod_eq_of_lt hxor]
  refine ⟨h1, ?_⟩
  rw [h1]
  have h2 : ((x ^^^ secret) % 256 ^^^ secret) % 256 = x := by
    rw [Nat.mod_eq_of_lt hxor, Nat.xor_assoc, Nat.xor_self, Nat.xor_zero,
      Nat.mod_eq_of_lt hx]
  simpa [simon_oracle_query] using h2

theorem c3_query_xor_involution_witness :
    (simon_oracle_query 5 ⟨7, 0⟩).1 = 5 ^^^ 7 ∧
    (simon_oracle_query (simon_oracle_query 5 ⟨7, 0⟩).1
      (simon_oracle_query 5 ⟨7, 0⟩).2).1 = 5 :=
  c3_query_xor_involution 5 7 0 (by decide) (by decide)

/-- A query made with the counter standing at 2^32 - 1 wraps it to 0
instead of incrementing it. -/
theorem query_count_wraps (t : OracleState) (h : t.query_count = 4294967295) :
    simon_oracle_get_query_count (simon_oracle_query 0 t).2 ≠
    simon_oracle_get_query_count t + 1 := by
  simp [simon_oracle_get_query_count, simon_oracle_query, h]

/-- Claim C7 counterexample: the query counter is a uint32_t, so the query
made when the counter stands at 2^32 - 1 (a state reachable from
simon_oracle_init by 4294967295 queries) wraps the counter to 0 instead of
incrementing it by 1, refuting the claim that every subsequent query
increments the counter by exactly 1. -/
theorem c7_counter_wrap_counterexample :
    simon_oracle_get_query_count
      (simon_oracle_query 0
        (applyQueries 4294967295 (simon_oracle_init 0 ⟨0, 0⟩))).2 ≠
    simon_oracle_get_query_count
      (applyQueries 4294967295 (simon_oracle_init 0 ⟨0, 0⟩)) + 1 :=
  query_count_wraps (applyQueries 4294967295 (simon_oracle_init 0 ⟨0, 0⟩))
    (by
      rw [applyQueries_query_count 4294967295 (simon_oracle_init 0 ⟨0, 0⟩)
        (by norm_num [simon_oracle_init])]
      norm_num [simon_oracle_init])

/-- Claim C7 amended: immediately after simon_oracle_init the counter reads
0, and a simon_oracle_query call increments the counter read by
simon_oracle_get_query_count by exactly 1 whenever the counter is below
2^32 - 1; at 2^32 - 1 the next query wraps it to 0 (32-bit counter). -/
theorem c7_counter_behaviour (secret : Nat) (s : OracleState) (x : Nat)
    (t : OracleState) (ht : t.query_count < 4294967295) :
    simon_oracle_get_query_count (simon_oracle_init secret s) = 0 ∧
    simon_oracle_get_query_count (simon_oracle_query x t).2 =
      simon_oracle_get_query_count t + 1 := by
  refine ⟨rfl, ?_⟩
  simp only [simon_oracle_get_query_count, simon_oracle_query]
  exact Nat.mod_eq_of_lt (by omega)

theorem c7_counter_behaviour_witness :
    simon_oracle_get_query_count (simon_oracle_init 9 ⟨0, 0⟩) = 0 ∧
    simon_oracle_get_query_count (simon_oracle_query 5 ⟨9, 0⟩).2 =
      simon_oracle_get_query_count ⟨9, 0⟩ + 1 :=
  c7_counter_behaviour 9 ⟨0, 0⟩ 5 ⟨9, 0⟩ (by norm_num)

/-- Claim C8: for every isotope name absent from the table,
simon_nuclear_search performs zero oracle queries, invokes the runner never,
and leaves the oracle state (secret and counter) unchanged. -/
theorem c8_unknown_isotope_frame (table : List NuclearIsotope)
    (target : String) (s : OracleState)
    (h : nuclear_find_isotope table target = none) :
    simon_nuclear_search table target s = ⟨s, [], []⟩ := by
  simp [simon_nuclear_search, h]

theorem c8_unknown_isotope_frame_witness :
    simon_nuclear_search [] tName ⟨7, 4⟩ = ⟨⟨7, 4⟩, [], []⟩ :=
  c8_unknown_isotope_frame [] tName ⟨7, 4⟩ (by decide)

/-- Claim C9: for every isotope name present in the table (with its byte
valued h7_index), simon_nuclear_search seeds the oracle with that isotope
h7_index as the secret and invokes the algorithm runner once with the fixed
qubit count 3, leaving the oracle with that secret, the query counter at 3,
and the query log 0, 1, 2. -/
theorem c9_known_isotope_search (table : List NuclearIsotope)
    (target : String) (s : OracleState) (iso : NuclearIsotope)
    (h : nuclear_find_isotope table target = some iso)
    (hidx : iso.h7_index < 256) :
    simon_nuclear_search table target s = ⟨⟨iso.h7_index, 3⟩, [0, 1, 2], [3]⟩ := by
  simp only [simon_nuclear_search, h, simon_run_algorithm, simon_oracle_init,
    Nat.mod_eq_of_lt hidx]
  rfl

theorem c9_known_isotope_search_witness :
    simon_nuclear_search demoTable tName ⟨7, 4⟩ = ⟨⟨5, 3⟩, [0, 1, 2], [3]⟩ :=
  c9_known_isotope_search demoTable tName ⟨7, 4⟩ ⟨tName, leftLabel, 5⟩
    (by decide) (by decide)
